import Mathlib

/-!
Shallow embedding of `homework.py`: fitness-tracker readings (Running,
SportsWalking, Swimming), their metric methods (`get_distance`,
`get_mean_speed`, `get_spent_calories`), the report value `InfoMessage`
with its formatter `get_message`, and the factory `read_package`.
Python numeric values (int/float) are modelled as rationals.
-/

namespace Homework

/-- A Python runtime value, as far as `read_package` can observe it:
`type(i) == int or type(i) == float` distinguishes ints and floats from
everything else (strings, booleans, None). -/
inductive PyVal where
  | int : ℤ → PyVal
  | float : ℚ → PyVal
  | str : String → PyVal
  | boolean : Bool → PyVal
  | pyNone : PyVal
deriving DecidableEq

/-- The check `type(i) == int or type(i) == float` from `read_package`.
Note `type(True) == int` is `False` in Python, so booleans are not numeric. -/
def isNumeric : PyVal → Bool
  | .int _ => true
  | .float _ => true
  | _ => false

/-- Numeric value of a `PyVal`, when it has one. -/
def toRat : PyVal → Option ℚ
  | .int n => some (n : ℚ)
  | .float x => some x
  | _ => Option.none

/-- The three workout classes registered in `read_package`'s dict. -/
inductive Kind where
  | running
  | sportsWalking
  | swimming
deriving DecidableEq

/-- A constructed training object. Constructor arguments follow the
source `__init__` signatures:
`Running(action, duration, weight)`,
`SportsWalking(action, duration, weight, height)`,
`Swimming(action, duration, weight, length_pool, count_pool)`. -/
inductive Training where
  | running (action duration weight : ℚ)
  | sportsWalking (action duration weight height : ℚ)
  | swimming (action duration weight length_pool count_pool : ℚ)
deriving DecidableEq

def action : Training → ℚ
  | .running a _ _ => a
  | .sportsWalking a _ _ _ => a
  | .swimming a _ _ _ _ => a

def duration : Training → ℚ
  | .running _ d _ => d
  | .sportsWalking _ d _ _ => d
  | .swimming _ d _ _ _ => d

def weight : Training → ℚ
  | .running _ _ w => w
  | .sportsWalking _ _ w _ => w
  | .swimming _ _ w _ _ => w

/-- `Training.M_IN_KM`. -/
def M_IN_KM : ℚ := 1000

/-- `Training.MIN_IN_H`. -/
def MIN_IN_H : ℚ := 60

/-- `Training.CM_IN_M`. -/
def CM_IN_M : ℚ := 100

/-- `LEN_STEP`: class attribute, `0.65` on `Training` (inherited by
`Running` and `SportsWalking`), overridden to `1.38` on `Swimming`. -/
def LEN_STEP : Training → ℚ
  | .swimming _ _ _ _ _ => 1.38
  | _ => 0.65

/-- `type(self).__name__`, as used by `__str__` and `show_training_info`. -/
def typeName : Training → String
  | .running _ _ _ => "Running"
  | .sportsWalking _ _ _ _ => "SportsWalking"
  | .swimming _ _ _ _ _ => "Swimming"

/-- `get_distance`: `self.action * self.LEN_STEP / self.M_IN_KM`.
`Swimming.get_distance` overrides the base method with the textually
identical formula (only `LEN_STEP` differs), so one equation covers all
three classes. -/
def get_distance (t : Training) : ℚ :=
  action t * LEN_STEP t / M_IN_KM

/-- `get_mean_speed`: base class `self.get_distance() / self.duration`;
`Swimming` overrides it with
`self.length_pool * self.count_pool / self.M_IN_KM / self.duration`. -/
def get_mean_speed : Training → ℚ
  | .swimming _ d _ lp cp => lp * cp / M_IN_KM / d
  | t => get_distance t / duration t

/-- `get_spent_calories`, per subclass (the base method is never reached
for constructed objects). -/
def get_spent_calories : Training → ℚ
  | .running a d w =>
      (18 * get_mean_speed (.running a d w) + 1.79) * w / M_IN_KM * d * MIN_IN_H
  | .sportsWalking a d w h =>
      (0.035 * w
        + (get_mean_speed (.sportsWalking a d w h) * 0.278) ^ 2
          / (h / CM_IN_M) * 0.029 * w)
        * d * MIN_IN_H
  | .swimming a d w lp cp =>
      (get_mean_speed (.swimming a d w lp cp) + 1.1) * 2 * w * d

/-- The `InfoMessage` dataclass. -/
structure InfoMessage where
  training_type : String
  duration : ℚ
  distance : ℚ
  speed : ℚ
  calories : ℚ
deriving DecidableEq

/-- Digit character for a value in `0..9`. -/
def digitChar (n : Nat) : Char := Char.ofNat (48 + n)

/-- The three fractional digits of a thousandths count `n < 1000`. -/
def fracPart3 (n : Nat) : String :=
  String.mk [digitChar (n / 100), digitChar (n / 10 % 10), digitChar (n % 10)]

/-- Round a rational to the nearest integer, ties to even (the rounding
Python's fixed-point formatting applies to the value). -/
def roundHalfEven (q : ℚ) : ℤ :=
  let f : ℤ := ⌊q⌋
  if q - f < 1 / 2 then f
  else if 1 / 2 < q - f then f + 1
  else if f % 2 = 0 then f else f + 1

/-- Python's fixed-point format `.3f`: sign, integer part, a point, and
exactly three fractional digits. -/
def fmt3 (q : ℚ) : String :=
  let m : Nat := (roundHalfEven (q * 1000)).natAbs
  (if q < 0 then "-" else "") ++ toString (m / 1000) ++ "." ++ fracPart3 (m % 1000)

/-- The literal pieces of the `INFO` template string, between the
format placeholders. -/
def INFO_seg0 : String := "Тип тренировки: "

def INFO_seg1 : String := "; Длительность: "

def INFO_seg2 : String := " ч.; Дистанция: "

def INFO_seg3 : String := " км; Ср. скорость: "

def INFO_seg4 : String := " км/ч; Потрачено ккал: "

def INFO_seg5 : String := "."

/-- `InfoMessage.get_message`: `INFO.format(*asdict(self).values())`,
interpolating the five ordered field values into the template; the four
numeric fields carry the `.3f` format spec. -/
def get_message (m : InfoMessage) : String :=
  INFO_seg0 ++ m.training_type ++ INFO_seg1 ++ fmt3 m.duration
    ++ INFO_seg2 ++ fmt3 m.distance ++ INFO_seg3 ++ fmt3 m.speed
    ++ INFO_seg4 ++ fmt3 m.calories ++ INFO_seg5

/-- `Training.show_training_info`. -/
def show_training_info (t : Training) : InfoMessage :=
  ⟨typeName t, duration t, get_distance t, get_mean_speed t, get_spent_calories t⟩

/-- The key lookup in the `trainings` dict of `read_package`. -/
def kindOfCode (s : String) : Option Kind :=
  if s = "SWM" then some .swimming
  else if s = "RUN" then some .running
  else if s = "WLK" then some .sportsWalking
  else Option.none

/-- `len(list(inspect.signature(cls).parameters))`: the `__init__`
parameter count (without `self`) of each workout class. -/
def paramCount : Kind → Nat
  | .running => 3
  | .sportsWalking => 4
  | .swimming => 5

/-- The error taxonomy of `read_package`: the `ValueError` raised for an
unknown code, the `TypeError` raised for an argument-count mismatch, and
the `TypeError` raised by the element-type check. -/
inductive PyErr where
  | unknownWorkoutKind
  | arityMismatch
  | invalidFieldType
deriving DecidableEq

/-- `read_package(workout_type, data)`. A successful call returns the
class picked by the code together with the positional data it was
constructed from. `Except.ok Option.none` models the `None` Python
returns when the loop body never runs (empty `data`); it is unreachable
past the arity check since every class takes at least three parameters.
The loop `for i in data: if ... return ... else raise` decides on the
first element alone. -/
def read_package (workout_type : String) (data : List PyVal) :
    Except PyErr (Option (Kind × List PyVal)) :=
  match kindOfCode workout_type with
  | Option.none => .error .unknownWorkoutKind
  | some k =>
    if data.length = paramCount k then
      match data with
      | [] => .ok Option.none
      | v :: _ => if isNumeric v then .ok (some (k, data)) else .error .invalidFieldType
    else .error .arityMismatch

/-- `trainings[workout_type](*data)`: building the training object from
the positional values, defined when every argument is numeric and the
arity matches. -/
def construct : Kind → List PyVal → Option Training
  | .running, [a, d, w] =>
      match toRat a, toRat d, toRat w with
      | some a, some d, some w => some (.running a d w)
      | _, _, _ => Option.none
  | .sportsWalking, [a, d, w, h] =>
      match toRat a, toRat d, toRat w, toRat h with
      | some a, some d, some w, some h => some (.sportsWalking a d w h)
      | _, _, _, _ => Option.none
  | .swimming, [a, d, w, lp, cp] =>
      match toRat a, toRat d, toRat w, toRat lp, toRat cp with
      | some a, some d, some w, some lp, some cp => some (.swimming a d w lp cp)
      | _, _, _, _, _ => Option.none
  | _, _ => Option.none

end Homework

open Homework

/-- Claim C1, counterexample: the code computes the swimming distance as
`action * LEN_STEP / M_IN_KM` with `LEN_STEP = 1.38`, not from the pool
geometry. On the reading constructed from `SWM [720, 1, 80, 25, 40]` the
result is `0.9936` km, which differs from `pool_length_m * pool_laps /
1000 = 1.000` km. -/
theorem c1_counterexample :
    get_distance (.swimming 720 1 80 25 40) = 0.9936 ∧
    get_distance (.swimming 720 1 80 25 40) ≠ 25 * 40 / 1000 := by
  constructor <;>
    norm_num [get_distance, LEN_STEP, M_IN_KM, action]

/-- Claim C1, amended: for every Swimming reading, `get_distance`
returns `action_count * 1.38 / 1000`; for the reading constructed from
`SWM [720, 1, 80, 25, 40]` it returns `0.9936` km. -/
theorem c1_swimming_distance :
    (∀ a d w lp cp : ℚ,
      get_distance (.swimming a d w lp cp) = a * 1.38 / 1000) ∧
    get_distance (.swimming 720 1 80 25 40) = 0.9936 := by
  refine ⟨fun a d w lp cp => rfl, ?_⟩
  norm_num [get_distance, LEN_STEP, M_IN_KM, action]

/-- Claim C2, counterexample: two Swimming readings that differ only in
`action_count` (721 vs 720 with the same duration, weight, pool length
and lap count) do NOT agree on both `get_distance` and
`get_mean_speed`: the distances differ, because `Swimming.get_distance`
is computed from `action_count`. -/
theorem c2_counterexample :
    ¬ (get_distance (.swimming 721 1 80 25 40)
         = get_distance (.swimming 720 1 80 25 40) ∧
       get_mean_speed (.swimming 721 1 80 25 40)
         = get_mean_speed (.swimming 720 1 80 25 40)) := by
  rintro ⟨h, -⟩
  norm_num [get_distance, LEN_STEP, M_IN_KM, action] at h

/-- Claim C2, amended: for any two Swimming readings that differ only in
`action_count`, `get_mean_speed` returns equal values on both (swimming
mean speed is computed from the pool geometry alone); `get_distance`,
by contrast, does depend on `action_count`. -/
theorem c2_swimming_speed_independent (a a' d w lp cp : ℚ) :
    get_mean_speed (.swimming a d w lp cp)
      = get_mean_speed (.swimming a' d w lp cp) := rfl

/-- Claim C5: for every Running or SportsWalking reading, `get_distance`
returns `action_count * 0.65 / 1000`; for the reading constructed from
`WLK [9000, 1, 75, 180]` it returns `5.850` km. -/
theorem c5_step_distance :
    (∀ a d w : ℚ, get_distance (.running a d w) = a * 0.65 / 1000) ∧
    (∀ a d w h : ℚ,
      get_distance (.sportsWalking a d w h) = a * 0.65 / 1000) ∧
    get_distance (.sportsWalking 9000 1 75 180) = 5.85 := by
  refine ⟨fun a d w => rfl, fun a d w h => rfl, ?_⟩
  norm_num [get_distance, LEN_STEP, M_IN_KM, action]

/-- Claim C6: for every Running reading with nonzero duration,
`get_spent_calories` returns exactly
`(18 * get_mean_speed() + 1.79) * weight_kg / 1000 * duration_hours * 60`. -/
theorem c6_running_calories (a d w : ℚ) (h : d ≠ 0) :
    get_spent_calories (.running a d w)
      = (18 * get_mean_speed (.running a d w) + 1.79) * w / 1000 * d * 60 := rfl

/-- Witness for C6 at the reading from `RUN [15000, 1, 75]`. -/
theorem c6_witness :
    (1 : ℚ) ≠ 0 ∧
    get_spent_calories (.running 15000 1 75)
      = (18 * get_mean_speed (.running 15000 1 75) + 1.79) * 75 / 1000 * 1 * 60 :=
  ⟨by norm_num, c6_running_calories 15000 1 75 (by norm_num)⟩

/-- Claim C8: for every valid Running reading (nonnegative step count)
with positive weight and positive duration, `get_spent_calories` is
nonnegative. -/
theorem c8_running_calories_nonneg (a d w : ℚ)
    (ha : 0 ≤ a) (hd : 0 < d) (hw : 0 < w) :
    0 ≤ get_spent_calories (.running a d w) := by
  have hs : 0 ≤ get_mean_speed (.running a d w) := by
    have he : get_mean_speed (.running a d w) = a * 0.65 / 1000 / d := rfl
    rw [he]
    exact div_nonneg (div_nonneg (mul_nonneg ha (by norm_num)) (by norm_num)) hd.le
  have hc : get_spent_calories (.running a d w)
      = (18 * get_mean_speed (.running a d w) + 1.79) * w / 1000 * d * 60 := rfl
  rw [hc]
  have h1 : (0 : ℚ) ≤ 18 * get_mean_speed (.running a d w) + 1.79 := by
    nlinarith [hs]
  exact mul_nonneg
    (mul_nonneg (div_nonneg (mul_nonneg h1 hw.le) (by norm_num)) hd.le)
    (by norm_num)

/-- Witness for C8 at the reading from `RUN [15000, 1, 75]`. -/
theorem c8_witness :
    (0 : ℚ) ≤ 15000 ∧ (0 : ℚ) < 1 ∧ (0 : ℚ) < 75 ∧
    0 ≤ get_spent_calories (.running 15000 1 75) :=
  ⟨by norm_num, by norm_num, by norm_num,
    c8_running_calories_nonneg 15000 1 75 (by norm_num) (by norm_num) (by norm_num)⟩

/-- Claim C3, counterexample: a raw list of the correct arity for `RUN`
whose second element is the non-numeric string `"x"` is NOT rejected:
because the type-check loop returns on the first element, `read_package`
constructs and returns the reading instead of failing with the
field-type error. -/
theorem c3_counterexample :
    isNumeric (.str "x") = false ∧
    read_package "RUN" [.int 1, .str "x", .int 2]
      = .ok (some (.running, [.int 1, .str "x", .int 2])) :=
  ⟨rfl, rfl⟩

/-- Claim C3, amended: for every known workout code and raw list of the
correct arity, `read_package` fails with the `InvalidFieldType` error
when the FIRST element of the list is not numeric; non-numeric elements
in later positions do not trigger the error. -/
theorem c3_first_nonnumeric_errors (code : String) (k : Kind)
    (v : PyVal) (rest : List PyVal)
    (hk : kindOfCode code = some k)
    (hl : (v :: rest).length = paramCount k)
    (hv : isNumeric v = false) :
    read_package code (v :: rest) = .error .invalidFieldType := by
  simp only [read_package, hk]
  rw [if_pos hl]
  simp [hv]

/-- Witness for the amended C3: `RUN` with `["x", 1, 2]`. -/
theorem c3_witness :
    read_package "RUN" [.str "x", .int 1, .int 2]
      = .error .invalidFieldType :=
  c3_first_nonnumeric_errors "RUN" .running (.str "x") [.int 1, .int 2]
    rfl rfl rfl

/-- Claim C4: `read_package`'s type validation examines only the first
element: for every known code and data list of matching arity whose
first element is numeric, it constructs and returns the reading,
whatever the remaining elements are. -/
theorem c4_first_numeric_constructs (code : String) (k : Kind)
    (v : PyVal) (rest : List PyVal)
    (hk : kindOfCode code = some k)
    (hl : (v :: rest).length = paramCount k)
    (hv : isNumeric v = true) :
    read_package code (v :: rest) = .ok (some (k, v :: rest)) := by
  simp only [read_package, hk]
  rw [if_pos hl]
  simp [hv]

/-- Witness for C4: `RUN` with first element numeric and two string
elements after it still constructs the reading. -/
theorem c4_witness :
    read_package "RUN" [.int 1, .str "x", .str "y"]
      = .ok (some (.running, [.int 1, .str "x", .str "y"])) :=
  c4_first_numeric_constructs "RUN" .running (.int 1) [.str "x", .str "y"]
    rfl rfl rfl

/-- Claim C7: for every workout code other than `SWM`, `RUN` and `WLK`
and every data list, `read_package` fails with the `UnknownWorkoutKind`
error. -/
theorem c7_unknown_code (code : String)
    (h1 : code ≠ "SWM") (h2 : code ≠ "RUN") (h3 : code ≠ "WLK")
    (data : List PyVal) :
    read_package code data = .error .unknownWorkoutKind := by
  have hk : kindOfCode code = Option.none := by
    unfold kindOfCode
    rw [if_neg h1, if_neg h2, if_neg h3]
  unfold read_package
  rw [hk]

/-- Witness for C7: code `BIKE` with data `[1, 2, 3]`. -/
theorem c7_witness :
    read_package "BIKE" [.int 1, .int 2, .int 3]
      = .error .unknownWorkoutKind :=
  c7_unknown_code "BIKE" (by decide) (by decide) (by decide)
    [.int 1, .int 2, .int 3]

/-- Claim C9: for every report value, `get_message` produces exactly the
template `Тип тренировки: ...; Длительность: ... ч.; Дистанция: ... км;
Ср. скорость: ... км/ч; Потрачено ккал: ... .` with the four numeric
fields each formatted in fixed-point with exactly three digits after the
decimal point. -/
theorem c9_message_template :
    (∀ m : InfoMessage,
      get_message m
        = "Тип тренировки: " ++ m.training_type
            ++ "; Длительность: " ++ fmt3 m.duration
            ++ " ч.; Дистанция: " ++ fmt3 m.distance
            ++ " км; Ср. скорость: " ++ fmt3 m.speed
            ++ " км/ч; Потрачено ккал: " ++ fmt3 m.calories ++ ".") ∧
    (∀ q : ℚ, ∃ w : String,
      fmt3 q = w ++ "." ++ fracPart3 ((roundHalfEven (q * 1000)).natAbs % 1000) ∧
      (fracPart3 ((roundHalfEven (q * 1000)).natAbs % 1000)).length = 3) :=
  ⟨fun _ => rfl,
   fun q =>
     ⟨(if q < 0 then "-" else "")
        ++ toString ((roundHalfEven (q * 1000)).natAbs / 1000), rfl, rfl⟩⟩

/-- Helper: any object `trainings["WLK"](*data)` builds is a
`SportsWalking` instance, whatever numeric data it was given. -/
theorem construct_sportsWalking_typeName (data : List PyVal) (t : Training)
    (h : construct Kind.sportsWalking data = some t) :
    typeName t = "SportsWalking" := by
  match data with
  | [] => exact Option.noConfusion h
  | [_] => exact Option.noConfusion h
  | [_, _] => exact Option.noConfusion h
  | [_, _, _] => exact Option.noConfusion h
  | _ :: _ :: _ :: _ :: _ :: _ => exact Option.noConfusion h
  | [a, d, w, hh] =>
    simp only [construct] at h
    rcases ea : toRat a with - | a₀ <;> rcases ed : toRat d with - | d₀ <;>
      rcases ew : toRat w with - | w₀ <;> rcases eh : toRat hh with - | h₀ <;>
        rw [ea, ed, ew, eh] at h <;>
          first
            | exact Option.noConfusion h
            | (rw [← Option.some.inj h]; rfl)

/-- Claim C10: every reading `read_package` builds from the code `WLK`
is a `SportsWalking` object, so its report carries the class name
`SportsWalking` (not `Walking`) and the formatted line starts with
`Тип тренировки: SportsWalking`. -/
theorem c10_wlk_reports_sportswalking
    (data : List PyVal) (r : Kind × List PyVal) (t : Training)
    (h1 : read_package "WLK" data = .ok (some r))
    (h2 : construct r.1 r.2 = some t) :
    (show_training_info t).training_type = "SportsWalking" ∧
    ∃ rest : String,
      get_message (show_training_info t)
        = "Тип тренировки: SportsWalking" ++ rest := by
  have hk : kindOfCode "WLK" = some Kind.sportsWalking := rfl
  have hr : r.1 = Kind.sportsWalking := by
    simp only [read_package, hk] at h1
    by_cases hl : data.length = paramCount Kind.sportsWalking
    · rw [if_pos hl] at h1
      cases data with
      | nil => simp at h1
      | cons v rest =>
        by_cases hv : isNumeric v = true
        · simp only [hv, if_true] at h1
          simp only [Except.ok.injEq, Option.some.injEq] at h1
          rw [← h1]
        · simp [hv] at h1
    · rw [if_neg hl] at h1
      simp at h1
  rw [hr] at h2
  have ht : typeName t = "SportsWalking" :=
    construct_sportsWalking_typeName r.2 t h2
  have ht' : (show_training_info t).training_type = "SportsWalking" := ht
  refine ⟨ht', ?_⟩
  refine ⟨INFO_seg1 ++ fmt3 (show_training_info t).duration ++ INFO_seg2
      ++ fmt3 (show_training_info t).distance ++ INFO_seg3
      ++ fmt3 (show_training_info t).speed ++ INFO_seg4
      ++ fmt3 (show_training_info t).calories ++ INFO_seg5, ?_⟩
  rw [show get_message (show_training_info t)
        = INFO_seg0 ++ (show_training_info t).training_type ++ INFO_seg1
            ++ fmt3 (show_training_info t).duration ++ INFO_seg2
            ++ fmt3 (show_training_info t).distance ++ INFO_seg3
            ++ fmt3 (show_training_info t).speed ++ INFO_seg4
            ++ fmt3 (show_training_info t).calories ++ INFO_seg5 from rfl,
      ht']
  simp only [← String.append_assoc]
  rfl

/-- Witness for C10 at the scenario package `WLK [9000, 1, 75, 180]`. -/
theorem c10_witness :
    (show_training_info
        (.sportsWalking ((9000 : ℤ) : ℚ) ((1 : ℤ) : ℚ)
          ((75 : ℤ) : ℚ) ((180 : ℤ) : ℚ))).training_type = "SportsWalking" ∧
    ∃ rest : String,
      get_message (show_training_info
          (.sportsWalking ((9000 : ℤ) : ℚ) ((1 : ℤ) : ℚ)
            ((75 : ℤ) : ℚ) ((180 : ℤ) : ℚ)))
        = "Тип тренировки: SportsWalking" ++ rest :=
  c10_wlk_reports_sportswalking
    [.int 9000, .int 1, .int 75, .int 180]
    (Kind.sportsWalking, [.int 9000, .int 1, .int 75, .int 180])
    (.sportsWalking ((9000 : ℤ) : ℚ) ((1 : ℤ) : ℚ)
      ((75 : ℤ) : ℚ) ((180 : ℤ) : ℚ))
    rfl rfl
